import Mathlib

/-!
Shallow embedding of the UAVCAN/CAN transport core of the `canadensis`
repository: the CAN identifier codec, acceptance filters, the receive-side
reassembly pipeline (`Receiver::accept` in `canadensis_can/src/rx.rs`), and
the publisher / node-registry operations (`canadensis/src/lib.rs`,
`canadensis/src/node/core.rs`).

Machine integers are embedded as `Nat` with explicit truncation (`% 2^w`)
at the points where the Rust code truncates.  Fallible allocation is made
explicit through a boolean allocation oracle.  Components of the repository
whose source files are not available (the `Buildup` reassembler, the
transfer CRC, the `canadensis_core` primitive-ID conversions, and the
`TrivialIndexMap`) are modelled from the specification; each such
definition carries a doc comment saying so.
-/

/-- Decidable equality for `Except`, used to evaluate the embedded
functions on concrete inputs (`Result` values in the Rust code). -/
instance {ε α : Type} [DecidableEq ε] [DecidableEq α] :
    DecidableEq (Except ε α) := fun x y =>
  match x, y with
  | .ok a, .ok b => decidable_of_iff (a = b) (by simp)
  | .error a, .error b => decidable_of_iff (a = b) (by simp)
  | .ok _, .error _ => isFalse (by simp)
  | .error _, .ok _ => isFalse (by simp)

/-! ## Bit extraction (the `GetBits` impl for `u32` in rx.rs) -/

/-- Embeds `GetBits::bit_set` for `u32`: `((self >> offset) & 1) == 1`. -/
def bit_set (x offset : Nat) : Bool := (x >>> offset) % 2 == 1

/-- Embeds `GetBits::get_u8` for `u32`: `(self >> offset) as u8` (truncating cast). -/
def get_u8 (x offset : Nat) : Nat := (x >>> offset) % 256

/-- Embeds `GetBits::get_u16` for `u32`: `(self >> offset) as u16` (truncating cast). -/
def get_u16 (x offset : Nat) : Nat := (x >>> offset) % 65536

/-! ## Transfer headers (canadensis_core data model, as used by rx.rs) -/

/-- The kind-specific part of a transfer header: message with its anonymous
flag and subject ID, or request / response with service ID and destination
node ID.  Mirrors `TransferKindHeader` of `canadensis_core`. -/
inductive TransferKindHeader where
  | message (anonymous : Bool) (subject : Nat)
  | request (service : Nat) (destination : Nat)
  | response (service : Nat) (destination : Nat)
deriving DecidableEq, Repr

/-- The three transfer kinds, mirroring `TransferKind`. -/
inductive TransferKind where
  | message
  | request
  | response
deriving DecidableEq, Repr

/-- Kind of a kind-specific header. -/
def TransferKindHeader.kind : TransferKindHeader → TransferKind
  | .message _ _ => .message
  | .request _ _ => .request
  | .response _ _ => .response

/-- Port ID of a kind-specific header: the subject ID for messages, the
service ID for requests and responses. -/
def TransferKindHeader.port_id : TransferKindHeader → Nat
  | .message _ subject => subject
  | .request service _ => service
  | .response service _ => service

/-- A transfer header: source node, priority, and the kind-specific part.
Mirrors `TransferHeader` of `canadensis_core`. -/
structure TransferHeader where
  source : Nat
  priority : Nat
  kind : TransferKindHeader
deriving DecidableEq, Repr

/-- Destination node of a service header, `none` for messages.  Mirrors the
use of `TransferKindHeader::service_header` in `frame_sanity_check`. -/
def TransferHeader.service_destination : TransferHeader → Option Nat
  | ⟨_, _, .request _ d⟩ => some d
  | ⟨_, _, .response _ d⟩ => some d
  | ⟨_, _, .message _ _⟩ => none

/-- Whether a header is an anonymous message header, mirroring
`TransferHeader::is_anonymous`. -/
def TransferHeader.is_anonymous : TransferHeader → Bool
  | ⟨_, _, .message a _⟩ => a
  | _ => false

/-- The `Nominal` priority level: priorities are 0 (highest) to 7 (lowest)
and `Nominal` is level 4, as in `canadensis_core::Priority`. -/
def Priority.Nominal : Nat := 4

/-! ## CAN identifier parsing (`parse_can_id` in rx.rs) -/

/-- Parse errors of `parse_can_id`, mirroring `CanIdParseError`. -/
inductive CanIdParseError where
  | Bit23Set
  | Bit7Set
deriving DecidableEq, Repr

/-- Embeds `parse_can_id` (rx.rs).  The 29-bit CAN identifier is decoded
into a `TransferHeader`; reserved bit 23 must be clear, and for message
frames reserved bit 7 must be clear.  The `X::try_from(...).expect(...)`
conversions of the Rust code are elided here; `parse_can_id_checked` below
keeps them and is proved to agree with this function. -/
def parse_can_id (bits : Nat) : Except CanIdParseError TransferHeader :=
  if bit_set bits 23 then .error .Bit23Set
  else
    let priority := get_u8 bits 26
    let source := get_u8 bits 0 &&& 0x7f
    if bit_set bits 25 then
      let service := get_u16 bits 14 &&& 0x1ff
      let destination := get_u8 bits 7 &&& 0x7f
      if bit_set bits 24 then
        .ok ⟨source, priority, .request service destination⟩
      else
        .ok ⟨source, priority, .response service destination⟩
    else
      if bit_set bits 7 then .error .Bit7Set
      else
        .ok ⟨source, priority, .message (bit_set bits 24) (get_u16 bits 8 &&& 0x1fff)⟩

/-- Modelled from the spec: `Priority::try_from(u8)` of `canadensis_core`
(not under src/) succeeds exactly for the eight priority levels 0..=7. -/
def priority_try_from (v : Nat) : Option Nat := if v < 8 then some v else none

/-- Modelled from the spec: `NodeId::try_from(u8)` of `canadensis_core`
(not under src/) succeeds exactly for 0..=127. -/
def node_id_try_from (v : Nat) : Option Nat := if v < 128 then some v else none

/-- Modelled from the spec: `ServiceId::try_from(u16)` of `canadensis_core`
(not under src/) succeeds exactly for 0..=511. -/
def service_id_try_from (v : Nat) : Option Nat := if v < 512 then some v else none

/-- Modelled from the spec: `SubjectId::try_from(u16)` of `canadensis_core`
(not under src/) succeeds exactly for 0..=8191. -/
def subject_id_try_from (v : Nat) : Option Nat := if v < 8192 then some v else none

/-- Embeds `parse_can_id` with every `try_from(...).expect(...)` conversion
kept as a fallible step; a `none` result corresponds to one of the
`expect` calls panicking. -/
def parse_can_id_checked (bits : Nat) :
    Option (Except CanIdParseError TransferHeader) :=
  if bit_set bits 23 then some (.error .Bit23Set)
  else
    match priority_try_from (get_u8 bits 26),
          node_id_try_from (get_u8 bits 0 &&& 0x7f) with
    | some priority, some source =>
      if bit_set bits 25 then
        match service_id_try_from (get_u16 bits 14 &&& 0x1ff),
              node_id_try_from (get_u8 bits 7 &&& 0x7f) with
        | some service, some destination =>
          if bit_set bits 24 then
            some (.ok ⟨source, priority, .request service destination⟩)
          else
            some (.ok ⟨source, priority, .response service destination⟩)
        | _, _ => none
      else
        if bit_set bits 7 then some (.error .Bit7Set)
        else
          match subject_id_try_from (get_u16 bits 8 &&& 0x1fff) with
          | some subject =>
            some (.ok ⟨source, priority, .message (bit_set bits 24) subject⟩)
          | none => none
    | _, _ => none

/-! ## Acceptance filters (`subject_filter` etc. in rx.rs) -/

/-- An acceptance filter, mirroring `canadensis_filter_config::Filter`
(a mask and a match ID, built by `Filter::new(mask, id)`); named
`CanFilter` here to avoid clashing with the mathlib `Filter`. -/
structure CanFilter where
  mask : Nat
  id : Nat
deriving DecidableEq, Repr

/-- Modelled from the spec: a hardware acceptance filter accepts a frame
when the frame CAN ID agrees with the filter ID on every mask bit
(`id AND mask = match AND mask`).  The `canadensis_filter_config` crate is
not under src/. -/
def CanFilter.accepts (f : CanFilter) (canId : Nat) : Bool :=
  canId &&& f.mask == f.id &&& f.mask

/-- Embeds `subject_filter` (rx.rs): matches message transfers on one
subject, with any priority, any anonymity, and any source node.  The mask
is `0b0_0010_1001_1111_1111_1111_1000_0000` and the match ID is
`0b0_0000_0110_0000_0000_0000_0000_0000 | subject << 8`, written in
hexadecimal here. -/
def subject_filter (subject : Nat) : CanFilter :=
  { mask := 0x29fff80
    id := 0x0600000 ||| subject <<< 8 }

/-! ## Tail bytes (rx.rs `TailByte`) -/

/-- A parsed tail byte, mirroring `TailByte` in rx.rs. -/
structure TailByte where
  start : Bool
  end_ : Bool
  toggle : Bool
  transfer_id : Nat
deriving DecidableEq, Repr

/-- Embeds `TailByte::parse`: start bit 7, end bit 6, toggle bit 5,
transfer ID in the low 5 bits. -/
def TailByte.parse (bits : Nat) : TailByte :=
  { start := bit_set bits 7
    end_ := bit_set bits 6
    toggle := bit_set bits 5
    transfer_id := bits &&& 0x1f }

/-! ## Transfer CRC -/

/-- Modelled from the spec: one step of CRC-16/CCITT-FALSE
(polynomial 0x1021, no reflection), processing the current high bit.
The `canadensis_can` crc module is not under src/. -/
def crc_step (crc : Nat) : Nat :=
  if bit_set crc 15 then ((crc <<< 1) ^^^ 0x1021) % 65536 else (crc <<< 1) % 65536

/-- Modelled from the spec: folding one byte into a CRC-16/CCITT-FALSE
state (`TransferCrc::add`), xoring the byte into the high half and then
shifting eight times. -/
def crc_add_byte (crc byte : Nat) : Nat :=
  crc_step (crc_step (crc_step (crc_step (crc_step (crc_step (crc_step (crc_step
    ((crc ^^^ (byte <<< 8)) % 65536))))))))

/-- Modelled from the spec: `TransferCrc::add_bytes` folds every byte of a
buffer into the CRC state. -/
def crc_add_bytes (crc : Nat) (bytes : List Nat) : Nat :=
  bytes.foldl crc_add_byte crc

/-- Modelled from the spec: the transfer CRC of a byte buffer, CRC-16/
CCITT-FALSE with initial value 0xFFFF and no output XOR (`TransferCrc::new`
followed by `add_bytes` and `get`). -/
def transfer_crc (bytes : List Nat) : Nat :=
  crc_add_bytes 0xffff bytes

/-! ## Buildup (per-session reassembler) -/

/-- Errors of `Buildup::add`, mirroring `BuildupError` (rx/buildup.rs,
whose source is not under src/; the variants are named at
rx.rs lines 293-304). -/
inductive BuildupError where
  | OutOfMemory
  | InvalidToggle
  | InvalidStart
deriving DecidableEq, Repr

/-- Modelled from the spec: the per-session reassembly state of
rx/buildup.rs (not under src/), per section 4.4 of the specification:
transfer ID, expected toggle, number of frames seen, and the accumulated
payload bytes. -/
structure Buildup where
  transfer_id : Nat
  expected_toggle : Bool
  frames : Nat
  bytes : List Nat
deriving DecidableEq, Repr

/-- Modelled from the spec: `Buildup::new(transfer_id)` starts with
expected toggle true (per UAVCAN v1), zero frames, and an empty buffer. -/
def Buildup.new (transfer_id : Nat) : Buildup :=
  { transfer_id := transfer_id, expected_toggle := true, frames := 0, bytes := [] }

/-- Modelled from the spec: `Buildup::payload_length` is the number of
accumulated payload bytes. -/
def Buildup.payload_length (b : Buildup) : Nat := b.bytes.length

/-- Modelled from the spec: `Buildup::add(frame_data)` (rx/buildup.rs, not
under src/), per section 4.4: split the tail byte off the end; on the
first frame require the start flag (`InvalidStart`); require the toggle to
match the expected toggle (`InvalidToggle`) and flip it; append the
non-tail bytes, where a failed allocation (modelled by the `allocOk`
oracle) yields `OutOfMemory`; count the frame; and return the accumulated
buffer when the end flag is set.  The caller (`Receiver::accept`,
rx.rs line 199) has already checked that the tail transfer ID equals the
buildup transfer ID. -/
def Buildup.add (b : Buildup) (allocOk : Bool) (frame_data : List Nat) :
    Except BuildupError (Buildup × Option (List Nat)) :=
  match frame_data.getLast? with
  | none => .error .InvalidStart
  | some lastByte =>
    let tail := TailByte.parse lastByte
    if b.frames == 0 && !tail.start then .error .InvalidStart
    else if tail.toggle != b.expected_toggle then .error .InvalidToggle
    else if !allocOk then .error .OutOfMemory
    else
      let b' : Buildup :=
        { b with
          expected_toggle := !b.expected_toggle
          bytes := b.bytes ++ frame_data.dropLast
          frames := b.frames + 1 }
      if tail.end_ then .ok (b', some b'.bytes) else .ok (b', none)

/-! ## Frames, sessions, subscriptions, receiver (rx.rs) -/

/-- An incoming CAN frame: timestamp, 29-bit CAN ID, and data bytes.
Mirrors `canadensis_can::Frame` as consumed by `Receiver::accept`;
instants are embedded as natural numbers (monotonic microsecond counts). -/
structure Frame where
  timestamp : Nat
  id : Nat
  data : List Nat
deriving DecidableEq, Repr

/-- A completed received transfer, mirroring `Transfer<Vec<u8>>`. -/
structure RxTransfer where
  timestamp : Nat
  header : TransferHeader
  transfer_id : Nat
  payload : List Nat
deriving DecidableEq, Repr

/-- A receive session (rx.rs `Session`): the timestamp of the first frame
of the transfer and the reassembly state. -/
structure Session where
  transfer_timestamp : Nat
  buildup : Buildup
deriving DecidableEq, Repr

/-- Embeds `Session::new`. -/
def Session.new (transfer_timestamp transfer_id : Nat) : Session :=
  { transfer_timestamp := transfer_timestamp, buildup := Buildup.new transfer_id }

/-- A subscription (rx.rs `Subscription`): per-source sessions, the
transfer timeout, the payload budget, and the port ID.  The 128-slot
session array is embedded as an association list from source node ID to
session, holding at most one entry per node. -/
structure Subscription where
  sessions : List (Nat × Session)
  timeout : Nat
  payload_size_max : Nat
  port_id : Nat
deriving DecidableEq, Repr

/-- Embeds `Subscription::session_mut`: the session slot for a node. -/
def Subscription.session_get (sub : Subscription) (node : Nat) : Option Session :=
  (sub.sessions.find? (fun e => e.1 == node)).map (·.2)

/-- Embeds the assignment `*slot = Some(session)` done by
`Subscription::create_session`: replace the slot for the node. -/
def Subscription.set_session (sub : Subscription) (node : Nat) (s : Session) :
    Subscription :=
  { sub with sessions := sub.sessions.filter (fun e => e.1 != node) ++ [(node, s)] }

/-- Embeds `Subscription::destroy_session`: clear the slot for the node. -/
def Subscription.destroy_session (sub : Subscription) (node : Nat) : Subscription :=
  { sub with sessions := sub.sessions.filter (fun e => e.1 != node) }

/-- Embeds the per-subscription part of `clean_sessions_from_subscriptions`:
delete every session whose first frame is older than the timeout, using
`now.duration_since(first frame timestamp)` (truncated subtraction). -/
def Subscription.clean (sub : Subscription) (now : Nat) : Subscription :=
  { sub with
    sessions := sub.sessions.filter
      (fun e => !(decide (now - e.2.transfer_timestamp > sub.timeout))) }

/-- The receiver state, mirroring `Receiver` (rx.rs): three subscription
lists, the local node ID, and the wrapping `u64` transfer and error
counters. -/
structure Receiver where
  subscriptions_message : List Subscription
  subscriptions_response : List Subscription
  subscriptions_request : List Subscription
  id : Nat
  transfer_count : Nat
  error_count : Nat
deriving DecidableEq, Repr

/-- Embeds `Receiver::new`. -/
def Receiver.new (id : Nat) : Receiver :=
  { subscriptions_message := []
    subscriptions_response := []
    subscriptions_request := []
    id := id
    transfer_count := 0
    error_count := 0 }

/-- A wrapping `u64` increment, embedding `u64::wrapping_add(1)`. -/
def inc_u64 (x : Nat) : Nat := (x + 1) % 2 ^ 64

/-- Embeds `Receiver::increment_error_count`. -/
def Receiver.increment_error_count (r : Receiver) : Receiver :=
  { r with error_count := inc_u64 r.error_count }

/-- Embeds `Receiver::increment_transfer_count`. -/
def Receiver.increment_transfer_count (r : Receiver) : Receiver :=
  { r with transfer_count := inc_u64 r.transfer_count }

/-- Embeds `Receiver::subscriptions_for_kind` as a reader. -/
def Receiver.subs_for_kind (r : Receiver) : TransferKind → List Subscription
  | .message => r.subscriptions_message
  | .response => r.subscriptions_response
  | .request => r.subscriptions_request

/-- Embeds the write-back half of `Receiver::subscriptions_for_kind`. -/
def Receiver.set_subs_for_kind (r : Receiver) :
    TransferKind → List Subscription → Receiver
  | .message, subs => { r with subscriptions_message := subs }
  | .response, subs => { r with subscriptions_response := subs }
  | .request, subs => { r with subscriptions_request := subs }

/-- Embeds `Receiver::clean_expired_sessions`. -/
def Receiver.clean_expired_sessions (r : Receiver) (now : Nat) : Receiver :=
  { r with
    subscriptions_message := r.subscriptions_message.map (Subscription.clean · now)
    subscriptions_request := r.subscriptions_request.map (Subscription.clean · now)
    subscriptions_response := r.subscriptions_response.map (Subscription.clean · now) }

/-- Embeds `Receiver::frame_sanity_check`: require a tail byte, a parseable
CAN ID, a matching destination for service frames, and single-frame
framing for anonymous messages. -/
def frame_sanity_check (local_id : Nat) (frame : Frame) :
    Option (TransferHeader × TailByte) :=
  match frame.data.getLast? with
  | none => none
  | some lastByte =>
    let tail := TailByte.parse lastByte
    match parse_can_id frame.id with
    | .error _ => none
    | .ok header =>
      if (header.service_destination.map (fun d => d != local_id)).getD false then
        none
      else if header.is_anonymous && !(tail.toggle && tail.start && tail.end_) then
        none
      else
        some (header, tail)

/-! ## Receiver.accept (rx.rs lines 167-312) -/

/-- Outcome of processing one frame inside one subscription: the updated
subscription, whether the error counter is incremented, whether the
transfer counter is incremented, and the returned value of `accept`
(`Except Unit` stands for `Result<_, OutOfMemoryError>`). -/
structure SubAcceptResult where
  sub : Subscription
  errInc : Bool
  transferInc : Bool
  result : Except Unit (Option RxTransfer)

/-- Embeds the part of `Receiver::accept` that runs once a session for the
frame is at hand (rx.rs lines 233-305): the payload-budget check, the
timeout re-check, `Buildup::add`, and on completion the multi-frame CRC
check and truncation. -/
def accept_session (sub : Subscription) (session : Session) (allocOk : Bool)
    (frame : Frame) (header : TransferHeader) : SubAcceptResult :=
  let max_payload_length := sub.payload_size_max
  let transfer_timeout := sub.timeout
  let new_payload_length := session.buildup.payload_length + (frame.data.length - 1)
  if new_payload_length > max_payload_length then
    ⟨sub.destroy_session header.source, true, false, .ok none⟩
  else if frame.timestamp - session.transfer_timestamp > transfer_timeout then
    ⟨sub.destroy_session header.source, true, false, .ok none⟩
  else
    match session.buildup.add allocOk frame.data with
    | .ok (b', some transfer_data) =>
      if b'.frames > 1 then
        if transfer_crc transfer_data != 0 then
          ⟨sub.destroy_session header.source, true, false, .ok none⟩
        else
          let truncated := transfer_data.take (transfer_data.length - 2)
          ⟨sub.destroy_session header.source, false, true,
            .ok (some ⟨session.transfer_timestamp, header, b'.transfer_id, truncated⟩)⟩
      else
        ⟨sub.destroy_session header.source, false, true,
          .ok (some ⟨session.transfer_timestamp, header, b'.transfer_id, transfer_data⟩)⟩
    | .ok (b', none) =>
      ⟨sub.set_session header.source { session with buildup := b' }, false, false,
        .ok none⟩
    | .error .OutOfMemory =>
      ⟨sub.destroy_session header.source, true, false, .ok none⟩
    | .error .InvalidToggle =>
      ⟨sub.destroy_session header.source, true, false, .ok none⟩
    | .error .InvalidStart =>
      ⟨sub.destroy_session header.source, true, false, .ok none⟩

/-- Embeds the session-selection part of `Receiver::accept` (rx.rs lines
196-232) for one subscription: reuse a session whose transfer ID matches
the tail, ignore mid-transfer frames of other transfers, require the start
flag before creating a session, and surface allocation failure of
`create_session` as an error with the error counter incremented. -/
def accept_in_sub (sub : Subscription) (allocOk : Bool) (frame : Frame)
    (header : TransferHeader) (tail : TailByte) : SubAcceptResult :=
  match sub.session_get header.source with
  | some session =>
    if session.buildup.transfer_id != tail.transfer_id then
      ⟨sub, false, false, .ok none⟩
    else
      accept_session sub session allocOk frame header
  | none =>
    if !tail.start then
      ⟨sub, false, false, .ok none⟩
    else if !allocOk then
      ⟨sub, true, false, .error ()⟩
    else
      let session := Session.new frame.timestamp tail.transfer_id
      accept_session (sub.set_session header.source session) session allocOk
        frame header

/-- Embeds the subscription lookup of `Receiver::accept` (rx.rs lines
188-192): find the first subscription whose port matches the header and
process the frame in it; without a match the frame is ignored. -/
def accept_in_list (subs : List Subscription) (allocOk : Bool) (frame : Frame)
    (header : TransferHeader) (tail : TailByte) :
    List Subscription × Bool × Bool × Except Unit (Option RxTransfer) :=
  match subs with
  | [] => ([], false, false, .ok none)
  | sub :: rest =>
    if sub.port_id == header.kind.port_id then
      let r := accept_in_sub sub allocOk frame header tail
      (r.sub :: rest, r.errInc, r.transferInc, r.result)
    else
      let acc := accept_in_list rest allocOk frame header tail
      (sub :: acc.1, acc.2)

/-- Embeds `Receiver::accept` (rx.rs lines 167-312): clean expired
sessions, run the frame sanity check (counting an error on failure), and
process the frame in the subscription list for its transfer kind.
Allocation success of the two growable operations in this call is modelled
by the `allocOk` oracle. -/
def Receiver.accept (r : Receiver) (allocOk : Bool) (frame : Frame) :
    Receiver × Except Unit (Option RxTransfer) :=
  let r := r.clean_expired_sessions frame.timestamp
  match frame_sanity_check r.id frame with
  | none => (r.increment_error_count, .ok none)
  | some (header, tail) =>
    let kind := header.kind.kind
    let acc := accept_in_list (r.subs_for_kind kind) allocOk frame header tail
    let r := r.set_subs_for_kind kind acc.1
    let r := if acc.2.1 then r.increment_error_count else r
    let r := if acc.2.2.1 then r.increment_transfer_count else r
    (r, acc.2.2.2)

/-! ## Anonymous pseudo node IDs (`make_pseudo_id` in canadensis/src/lib.rs) -/

/-- Modelled from the spec: `NodeId::from_truncating` of `canadensis_core`
(not under src/) keeps the low seven bits, yielding a node ID in 0..=127. -/
def NodeId.from_truncating (bits : Nat) : Nat := bits % 128

/-- Modelled from the spec: `NodeId::is_diagnostic_reserved` of
`canadensis_core` (not under src/).  The specification reserves a subset
of node IDs for diagnostics; per UAVCAN v1 these are the two highest node
IDs, 126 and 127. -/
def NodeId.is_diagnostic_reserved (n : Nat) : Bool := n == 126 || n == 127

/-- The XOR accumulation of `make_pseudo_id`: seed 37, XOR in every
payload byte (`u8` arithmetic, hence the truncation). -/
def make_pseudo_id_bits (payload : List Nat) : Nat :=
  payload.foldl (fun acc byte => (acc ^^^ byte) % 256) 37

/-- The downward walk of `make_pseudo_id`: truncate to a node ID and, while
it is diagnostic-reserved, decrement the `u8` accumulator with wrap-around
(`wrapping_sub(1)`).  The loop of the Rust code always terminates within
three steps; it is embedded with explicit fuel. -/
def pseudo_id_loop : Nat → Nat → Option Nat
  | 0, _ => none
  | fuel + 1, id_bits =>
    let id := NodeId.from_truncating id_bits
    if !NodeId.is_diagnostic_reserved id then some id
    else pseudo_id_loop fuel ((id_bits + 255) % 256)

/-- Embeds `make_pseudo_id` (lib.rs lines 281-297): XOR the payload bytes
into a seed of 37, then walk downward with wrap-around until the node ID
is not diagnostic-reserved.  Fuel 256 covers a full wrap of the `u8`
accumulator; the totality theorem below shows the loop never runs out. -/
def make_pseudo_id (payload : List Nat) : Nat :=
  (pseudo_id_loop 256 (make_pseudo_id_bits payload)).getD 0

/-! ## Publishers and the transmitter queue (canadensis/src/lib.rs) -/

/-- A transfer handed to `Transmitter::push`: deadline timestamp, header,
transfer ID, and borrowed payload bytes, mirroring `Transfer<&[u8]>`. -/
structure TxTransfer where
  timestamp : Nat
  header : TransferHeader
  transfer_id : Nat
  payload : List Nat
deriving DecidableEq, Repr

/-- Modelled from the spec: the transmitter (canadensis_can tx, not under
src/) as observed by the publishers: an ordered queue of the transfers
pushed into it. -/
structure Transmitter where
  pushed : List TxTransfer
deriving DecidableEq, Repr

/-- Modelled from the spec: `Transmitter::push` appends the transfer's
frames, in order, to the outgoing queue; a successful push is modelled as
recording the pushed transfer. -/
def Transmitter.push (tx : Transmitter) (t : TxTransfer) :
    Transmitter × Except Unit Unit :=
  ({ pushed := tx.pushed ++ [t] }, .ok ())

/-- Modelled from the spec: `TransferId::increment` of `canadensis_core`
(not under src/) is a modular 5-bit increment (`next_transfer_id` is taken
mod 32). -/
def TransferId.increment (t : Nat) : Nat := (t + 1) % 32

/-- The anonymous publisher state, mirroring `AnonymousPublisher`
(lib.rs): priority, subject, and the next transfer ID. -/
structure AnonymousPublisher where
  priority : Nat
  subject : Nat
  next_transfer_id : Nat
deriving DecidableEq, Repr

/-- Embeds `AnonymousPublisher::send_payload` (lib.rs lines 156-182): build
a transfer whose source is the payload-derived pseudo node ID, whose kind
is `Message` with `anonymous: false`, and whose payload is the whole input
payload; increment the transfer ID; and push the transfer to the
transmitter, returning the push result. -/
def AnonymousPublisher.send_payload (p : AnonymousPublisher) (payload : List Nat)
    (deadline : Nat) (tx : Transmitter) :
    AnonymousPublisher × Transmitter × Except Unit Unit :=
  let transfer : TxTransfer :=
    { timestamp := deadline
      header :=
        { source := make_pseudo_id payload
          priority := p.priority
          kind := .message false p.subject }
      transfer_id := p.next_transfer_id
      payload := payload }
  let p' := { p with next_transfer_id := TransferId.increment p.next_transfer_id }
  let (tx', res) := tx.push transfer
  (p', tx', res)

/-! ## The node's publisher registry (lib.rs `Node`, core.rs `CoreNode`) -/

/-- A publisher, mirroring `Publisher` (lib.rs): next transfer ID,
timeout, priority, and the source node ID. -/
structure Publisher where
  next_transfer_id : Nat
  timeout : Nat
  priority : Nat
  source : Nat
deriving DecidableEq, Repr

/-- Embeds `Publisher::new`: the first transfer uses the default transfer
ID 0. -/
def Publisher.new (node_id timeout priority : Nat) : Publisher :=
  { next_transfer_id := 0, timeout := timeout, priority := priority, source := node_id }

/-- Modelled from the spec: the bounded publisher map
`TrivialIndexMap<SubjectId, Publisher, P>` (crate::hash, not under src/):
an insertion-ordered bounded map from subject ID to publisher, embedded as
an association list with at most one entry per key. -/
structure PublisherMap where
  entries : List (Nat × Publisher)
deriving DecidableEq, Repr

/-- Lookup in the publisher map (`TrivialIndexMap::get`). -/
def PublisherMap.get (m : PublisherMap) (key : Nat) : Option Publisher :=
  (m.entries.find? (fun e => e.1 == key)).map (·.2)

/-- Key membership in the publisher map (`TrivialIndexMap::contains_key`). -/
def PublisherMap.contains_key (m : PublisherMap) (key : Nat) : Bool :=
  m.entries.any (fun e => e.1 == key)

/-- Number of entries in the publisher map. -/
def PublisherMap.size (m : PublisherMap) : Nat := m.entries.length

/-- Modelled from the spec: `TrivialIndexMap::insert` with capacity `cap`
refuses duplicate keys and refuses to grow past the capacity, leaving the
map unchanged in both cases; otherwise it appends the new entry. -/
def PublisherMap.insert (cap : Nat) (m : PublisherMap) (key : Nat)
    (value : Publisher) : Except Unit PublisherMap :=
  if m.contains_key key then .error ()
  else if m.size < cap then .ok ⟨m.entries ++ [(key, value)]⟩
  else .error ()

/-- Embeds `Node::start_publishing_topic` (lib.rs lines 449-460) restricted
to the state it touches (the publisher map): insert a fresh publisher for
the subject, mapping success to a subscription token (the subject) and any
insertion failure to `CapacityError` (modelled as `Except Unit`). -/
def start_publishing_topic (P : Nat) (node_id : Nat) (publishers : PublisherMap)
    (subject timeout priority : Nat) : PublisherMap × Except Unit Nat :=
  match publishers.insert P subject (Publisher.new node_id timeout priority) with
  | .ok m' => (m', .ok subject)
  | .error _ => (publishers, .error ())

/-- Failure modes of `CoreNode::start_publishing`, mirroring
`StartSendError` (core.rs): a duplicate subject or an allocation/capacity
failure. -/
inductive StartSendError where
  | Duplicate
  | Memory
deriving DecidableEq, Repr

/-- Embeds `CoreNode::start_publishing` (node/core.rs lines 158-179)
restricted to the publisher map: reject a subject that is already present
with `Duplicate`, otherwise insert and map insertion failure to
`Memory`. -/
def core_start_publishing (P : Nat) (node_id : Nat) (publishers : PublisherMap)
    (subject timeout priority : Nat) :
    PublisherMap × Except StartSendError Nat :=
  if publishers.contains_key subject then
    (publishers, .error .Duplicate)
  else
    match publishers.insert P subject (Publisher.new node_id timeout priority) with
    | .ok m' => (m', .ok subject)
    | .error _ => (publishers, .error .Memory)

/-! ## Concrete states used by the witnesses and counterexamples -/

/-- A message subscription on subject 7509 holding a mid-transfer session
from node 42 whose buildup carries seven payload bytes. -/
def subC1 : Subscription :=
  { sessions := [(42, { transfer_timestamp := 0
                        buildup := { transfer_id := 0, expected_toggle := false
                                     frames := 1, bytes := [1, 2, 3, 4, 5, 6, 7] } })]
    timeout := 1000
    payload_size_max := 100
    port_id := 7509 }

/-- A receiver with node ID 100 subscribed to subject 7509 via `subC1`. -/
def recC1 : Receiver :=
  { Receiver.new 100 with subscriptions_message := [subC1] }

/-- A continuation frame of the `subC1` transfer (tail byte `0x40`:
start 0, end 1, toggle 0, transfer ID 0). -/
def frameC1 : Frame := { timestamp := 10, id := 0x107d552a, data := [8, 9, 0x40] }

/-- A receiver with node ID 100 and no subscriptions. -/
def recC2 : Receiver := Receiver.new 100

/-- A single-frame service request frame (the node-info request CAN ID
`0x136b957b`, destination node 42) with tail byte `0xE0`. -/
def frameC2 : Frame := { timestamp := 0, id := 0x136b957b, data := [0, 0xE0] }

/-- The session of `subC6`: seven payload bytes already reassembled from
the first frame of transfer 3 of node 42. -/
def sessC6 : Session :=
  { transfer_timestamp := 0
    buildup := { transfer_id := 3, expected_toggle := false
                 frames := 1, bytes := [1, 2, 3, 4, 5, 6, 7] } }

/-- A message subscription on subject 7509 with payload budget 11
(nine payload bytes plus the two CRC bytes) holding `sessC6`. -/
def subC6 : Subscription :=
  { sessions := [(42, sessC6)]
    timeout := 1000
    payload_size_max := 11
    port_id := 7509 }

/-- A receiver with node ID 100 subscribed to subject 7509 via `subC6`. -/
def recC6 : Receiver :=
  { Receiver.new 100 with subscriptions_message := [subC6] }

/-- The final frame of the `subC6` transfer: payload bytes 8 and 9, the
transfer CRC `0x3b0a` of the nine payload bytes in big-endian order, and
tail byte `0x43` (start 0, end 1, toggle 0, transfer ID 3). -/
def frameC6 : Frame :=
  { timestamp := 5, id := 0x107d552a, data := [8, 9, 59, 10, 0x43] }

/-- The buildup state after `frameC6` is added to `sessC6`. -/
def buildupC6 : Buildup :=
  { transfer_id := 3, expected_toggle := true, frames := 2
    bytes := [1, 2, 3, 4, 5, 6, 7, 8, 9, 59, 10] }

/-- An anonymous publisher on subject 7509 with priority `Nominal`. -/
def apC3 : AnonymousPublisher :=
  { priority := 4, subject := 7509, next_transfer_id := 0 }

/-- An eight-byte payload: one byte more than fits into a single classic
CAN frame (MTU 8, so 7 payload bytes per frame beside the tail byte). -/
def payloadC3 : List Nat := [1, 2, 3, 4, 5, 6, 7, 8]

/-- A publisher map holding one publisher, for subject 7509. -/
def pmC4 : PublisherMap := ⟨[(7509, Publisher.new 100 50 4)]⟩

/-- Auxiliary decision procedure for the pseudo-ID walk: the loop with
fuel 256 returns a non-diagnostic-reserved node ID. -/
def loop_ok (b : Nat) : Bool :=
  match pseudo_id_loop 256 b with
  | some v => !NodeId.is_diagnostic_reserved v
  | none => false

/-! ## Shared lemmas about bit extraction -/

/-- The truncating bit test agrees with `Nat.testBit`. -/
theorem bit_set_eq_testBit (x n : Nat) : bit_set x n = x.testBit n := by
  unfold bit_set
  rw [Nat.testBit_to_div_mod, Nat.shiftRight_eq_div_pow]
  cases h : decide (x / 2 ^ n % 2 = 1) <;> simp_all

/-- Masking an eight-bit truncation with `0x7f` keeps the low seven bits. -/
theorem mask_7f (x : Nat) : x % 256 &&& 0x7f = x % 128 := by
  have h : (0x7f : Nat) = 2 ^ 7 - 1 := rfl
  rw [h, Nat.and_pow_two_sub_one_eq_mod]
  exact Nat.mod_mod_of_dvd x (by norm_num)

/-- Masking a sixteen-bit truncation with `0x1ff` keeps the low nine bits. -/
theorem mask_1ff (x : Nat) : x % 65536 &&& 0x1ff = x % 512 := by
  have h : (0x1ff : Nat) = 2 ^ 9 - 1 := rfl
  rw [h, Nat.and_pow_two_sub_one_eq_mod]
  exact Nat.mod_mod_of_dvd x (by norm_num)

/-- Masking a sixteen-bit truncation with `0x1fff` keeps the low 13 bits. -/
theorem mask_1fff (x : Nat) : x % 65536 &&& 0x1fff = x % 8192 := by
  have h : (0x1fff : Nat) = 2 ^ 13 - 1 := rfl
  rw [h, Nat.and_pow_two_sub_one_eq_mod]
  exact Nat.mod_mod_of_dvd x (by norm_num)

/-- The source node field of `parse_can_id` is the low seven bits. -/
theorem source_field (bits : Nat) : get_u8 bits 0 &&& 0x7f = bits % 128 := by
  unfold get_u8
  rw [Nat.shiftRight_eq_div_pow]
  simpa using mask_7f bits

/-- The priority field of `parse_can_id` is bits 26 and above, for 29-bit
identifiers. -/
theorem priority_field (bits : Nat) (h : bits < 2 ^ 29) :
    get_u8 bits 26 = bits / 2 ^ 26 := by
  unfold get_u8
  rw [Nat.shiftRight_eq_div_pow]
  exact Nat.mod_eq_of_lt (by omega)

/-- The service ID field of `parse_can_id` is bits 14 to 22. -/
theorem service_field (bits : Nat) :
    get_u16 bits 14 &&& 0x1ff = bits / 2 ^ 14 % 512 := by
  unfold get_u16
  rw [Nat.shiftRight_eq_div_pow]
  exact mask_1ff _

/-- The destination node field of `parse_can_id` is bits 7 to 13. -/
theorem destination_field (bits : Nat) :
    get_u8 bits 7 &&& 0x7f = bits / 2 ^ 7 % 128 := by
  unfold get_u8
  rw [Nat.shiftRight_eq_div_pow]
  exact mask_7f _

/-- The subject ID field of `parse_can_id` is bits 8 to 20. -/
theorem subject_field (bits : Nat) :
    get_u16 bits 8 &&& 0x1fff = bits / 2 ^ 8 % 8192 := by
  unfold get_u16
  rw [Nat.shiftRight_eq_div_pow]
  exact mask_1fff _

/-- C5: `parse_can_id` implements the section 4.1 bit layout: it fails with
`Bit23Set` exactly when reserved bit 23 of the 29-bit identifier is set;
it fails with `Bit7Set` exactly when bit 23 is clear, bit 25 is clear
(message) and bit 7 is set; otherwise it returns the header decoded from
the layout (source in bits 0-6, priority in bits 26-28, and for messages
the anonymous flag in bit 24 and the subject in bits 8-20, for services
the request flag in bit 24, the service in bits 14-22 and the destination
in bits 7-13).  In particular CAN ID `0x107d552a` parses to a message
header with source 42, priority Nominal, subject 7509, anonymous false. -/
theorem c5_parse_can_id_layout :
    (∀ bits : Nat, bits < 2 ^ 29 →
      (parse_can_id bits = .error .Bit23Set ↔ bit_set bits 23 = true) ∧
      (parse_can_id bits = .error .Bit7Set ↔
        (bit_set bits 23 = false ∧ bit_set bits 25 = false ∧
          bit_set bits 7 = true)) ∧
      (bit_set bits 23 = false → bit_set bits 25 = true →
        parse_can_id bits = .ok ⟨bits % 128, bits / 2 ^ 26,
          if bit_set bits 24 then
            .request (bits / 2 ^ 14 % 512) (bits / 2 ^ 7 % 128)
          else
            .response (bits / 2 ^ 14 % 512) (bits / 2 ^ 7 % 128)⟩) ∧
      (bit_set bits 23 = false → bit_set bits 25 = false →
        bit_set bits 7 = false →
        parse_can_id bits = .ok ⟨bits % 128, bits / 2 ^ 26,
          .message (bit_set bits 24) (bits / 2 ^ 8 % 8192)⟩)) ∧
    parse_can_id 0x107d552a =
      .ok ⟨42, Priority.Nominal, .message false 7509⟩ := by
  constructor
  · intro bits hlt
    refine ⟨?_, ?_, ?_, ?_⟩
    · cases h23 : bit_set bits 23 <;>
        simp [parse_can_id, h23] <;>
        cases h25 : bit_set bits 25 <;>
        cases h24 : bit_set bits 24 <;>
        cases h7 : bit_set bits 7 <;>
        simp [h25, h24, h7]
    · cases h23 : bit_set bits 23 <;>
        simp [parse_can_id, h23] <;>
        cases h25 : bit_set bits 25 <;>
        cases h24 : bit_set bits 24 <;>
        cases h7 : bit_set bits 7 <;>
        simp [h25, h24, h7]
    · intro h23 h25
      simp only [parse_can_id, h23, h25, Bool.false_eq_true, if_false, if_true,
        source_field, priority_field bits hlt, service_field, destination_field]
      cases h24 : bit_set bits 24 <;> simp [h24]
    · intro h23 h25 h7
      simp only [parse_can_id, h23, h25, h7, Bool.false_eq_true, if_false,
        source_field, priority_field bits hlt, subject_field]
  · decide

/-- Witness for C5 at the concrete heartbeat identifier. -/
theorem c5_witness :
    parse_can_id 0x107d552a =
      .ok ⟨42, Priority.Nominal, .message false 7509⟩ := by
  have h := (c5_parse_can_id_layout.1 0x107d552a (by norm_num)).2.2.2
    (by decide) (by decide) (by decide)
  exact h.trans (by decide)

/-- C10: `parse_can_id` is total and panic-free: on every 29-bit CAN
identifier, each masked field extraction is in range, so every
`try_from(...).expect(...)` conversion succeeds and the checked embedding
agrees with the total one, always returning either a header or a
`CanIdParseError`. -/
theorem c10_parse_can_id_no_panic (bits : Nat) (hlt : bits < 2 ^ 29) :
    parse_can_id_checked bits = some (parse_can_id bits) := by
  have hp : bits / 67108864 < 8 := by omega
  have hsv : bits / 16384 % 512 < 512 := by omega
  have hd : bits / 128 % 128 < 128 := by omega
  have hsub : bits / 256 % 8192 < 8192 := by omega
  have hs : bits % 128 < 128 := by omega
  unfold parse_can_id_checked parse_can_id priority_try_from node_id_try_from
    service_id_try_from subject_id_try_from
  rw [source_field, priority_field bits hlt, service_field,
    destination_field, subject_field]
  cases bit_set bits 23 <;> cases bit_set bits 25 <;>
    cases bit_set bits 24 <;> cases bit_set bits 7 <;>
    simp [hp, hs, hsv, hd, hsub]

/-- Witness for C10 at the concrete heartbeat identifier. -/
theorem c10_witness :
    parse_can_id_checked 0x107d552a = some (parse_can_id 0x107d552a) :=
  c10_parse_can_id_no_panic 0x107d552a (by norm_num)

/-- C8: `subject_filter s` consists of mask
`0b0_0010_1001_1111_1111_1111_1000_0000` and match ID
`0b0_0000_0110_0000_0000_0000_0000_0000 | (s << 8)`, and it is sound:
every 29-bit CAN identifier accepted by the filter (equal to the match ID
on all mask bits) parses to a message header whose subject is `s`. -/
theorem c8_subject_filter_sound (s : Nat) (hs : s < 8192) :
    (subject_filter s).mask = 0x29fff80 ∧
    (subject_filter s).id = 0x0600000 ||| s <<< 8 ∧
    ∀ canId : Nat, canId < 2 ^ 29 →
      (subject_filter s).accepts canId = true →
      ∃ anonymous source priority,
        parse_can_id canId = .ok ⟨source, priority, .message anonymous s⟩ := by
  refine ⟨rfl, rfl, ?_⟩
  intro canId hlt hacc
  have hacc' : canId &&& 0x29fff80 = (0x0600000 ||| s <<< 8) &&& 0x29fff80 := by
    simpa [CanFilter.accepts, subject_filter] using hacc
  have key : ∀ i, (canId &&& 0x29fff80).testBit i =
      ((0x0600000 ||| s <<< 8) &&& 0x29fff80).testBit i := fun i => by rw [hacc']
  have h25 : canId.testBit 25 = false := by
    have h := key 25
    simp only [Nat.testBit_and, Nat.testBit_or, Nat.testBit_shiftLeft] at h
    rw [show Nat.testBit 0x29fff80 25 = true from by decide,
      show Nat.testBit 0x0600000 25 = false from by decide] at h
    simp only [Bool.and_true, Bool.false_or] at h
    rw [Nat.testBit_lt_two_pow (show s < 2 ^ (25 - 8) by omega)] at h
    simpa using h
  have h23 : canId.testBit 23 = false := by
    have h := key 23
    simp only [Nat.testBit_and, Nat.testBit_or, Nat.testBit_shiftLeft] at h
    rw [show Nat.testBit 0x29fff80 23 = true from by decide,
      show Nat.testBit 0x0600000 23 = false from by decide] at h
    simp only [Bool.and_true, Bool.false_or] at h
    rw [Nat.testBit_lt_two_pow (show s < 2 ^ (23 - 8) by omega)] at h
    simpa using h
  have h7 : canId.testBit 7 = false := by
    have h := key 7
    simp only [Nat.testBit_and, Nat.testBit_or, Nat.testBit_shiftLeft] at h
    rw [show Nat.testBit 0x29fff80 7 = true from by decide,
      show Nat.testBit 0x0600000 7 = false from by decide] at h
    simpa using h
  have hsubj : canId / 2 ^ 8 % 8192 = s := by
    have h8192 : (8192 : Nat) = 2 ^ 13 := rfl
    apply Nat.eq_of_testBit_eq
    intro j
    by_cases hj : j < 13
    · rw [h8192, Nat.testBit_mod_two_pow, ← Nat.shiftRight_eq_div_pow,
        Nat.testBit_shiftRight]
      have h := key (8 + j)
      simp only [Nat.testBit_and, Nat.testBit_or, Nat.testBit_shiftLeft] at h
      rw [show Nat.testBit 0x29fff80 (8 + j) = true from by
          interval_cases j <;> decide,
        show Nat.testBit 0x0600000 (8 + j) = false from by
          interval_cases j <;> decide] at h
      simp at h
      simp [hj, h]
    · rw [h8192, Nat.testBit_mod_two_pow,
        Nat.testBit_lt_two_pow (show s < 2 ^ j from
          lt_of_lt_of_le hs (by
            rw [h8192]
            exact Nat.pow_le_pow_right (by norm_num) (by omega)))]
      simp [hj]
  have h23' : bit_set canId 23 = false := by rw [bit_set_eq_testBit]; exact h23
  have h25' : bit_set canId 25 = false := by rw [bit_set_eq_testBit]; exact h25
  have h7' : bit_set canId 7 = false := by rw [bit_set_eq_testBit]; exact h7
  refine ⟨bit_set canId 24, canId % 128, get_u8 canId 26, ?_⟩
  simp [parse_can_id, h23', h25', h7', source_field, subject_field]
  simpa using hsubj

/-- Witness for C8: the heartbeat CAN identifier `0x107d552a` is accepted
by `subject_filter 7509` and parses to a message header on subject 7509. -/
theorem c8_witness :
    ∃ anonymous source priority,
      parse_can_id 0x107d552a = .ok ⟨source, priority, .message anonymous 7509⟩ := by
  have h := c8_subject_filter_sound 7509 (by norm_num)
  exact h.2.2 0x107d552a (by norm_num) (by decide)

/-- The XOR accumulator of `make_pseudo_id` stays within `u8` range. -/
theorem make_pseudo_id_bits_lt (payload : List Nat) :
    make_pseudo_id_bits payload < 256 := by
  unfold make_pseudo_id_bits
  have h : ∀ (l : List Nat) (a : Nat), a < 256 →
      l.foldl (fun acc byte => (acc ^^^ byte) % 256) a < 256 := by
    intro l
    induction l with
    | nil => intro a ha; simpa using ha
    | cons b rest ih =>
      intro a _
      exact ih _ (Nat.mod_lt _ (by norm_num))
  exact h payload 37 (by norm_num)

set_option maxRecDepth 4096 in
/-- The pseudo-ID walk succeeds within fuel 256 on every `u8` start value,
yielding a node ID that is not diagnostic-reserved. -/
theorem loop_ok_all (b : Nat) (hb : b < 256) : loop_ok b = true := by
  have h : ∀ x : Fin 256, loop_ok x.1 = true := by decide
  exact h ⟨b, hb⟩

/-- C7: the anonymous pseudo node ID is the deterministic function of the
payload computed by seeding with 37, XORing in each byte, and walking
downward with wrap-around; the walk always terminates within its fuel, and
for every payload the result is never a diagnostic-reserved node ID. -/
theorem c7_pseudo_id_never_reserved (payload : List Nat) :
    pseudo_id_loop 256 (make_pseudo_id_bits payload) =
      some (make_pseudo_id payload) ∧
    NodeId.is_diagnostic_reserved (make_pseudo_id payload) = false := by
  have hb := make_pseudo_id_bits_lt payload
  have hok := loop_ok_all _ hb
  unfold loop_ok at hok
  unfold make_pseudo_id
  cases hres : pseudo_id_loop 256 (make_pseudo_id_bits payload) with
  | none => rw [hres] at hok; exact absurd hok (by simp)
  | some v =>
    rw [hres] at hok
    refine ⟨by simp, ?_⟩
    simpa using hok

/-- C9: every transfer pushed by `AnonymousPublisher::send_payload` carries
a message header whose anonymous flag is false, even though its source is
the payload-derived pseudo node ID. -/
theorem c9_anonymous_flag_false (p : AnonymousPublisher) (payload : List Nat)
    (deadline : Nat) (tx : Transmitter) :
    ∃ t : TxTransfer,
      (p.send_payload payload deadline tx).2.1.pushed = tx.pushed ++ [t] ∧
      t.header.kind = .message false p.subject ∧
      t.header.is_anonymous = false ∧
      t.header.source = make_pseudo_id payload := by
  refine ⟨⟨deadline, ⟨make_pseudo_id payload, p.priority, .message false p.subject⟩,
    p.next_transfer_id, payload⟩, rfl, rfl, rfl, rfl⟩

/-- C3 (failing input): `AnonymousPublisher::send_payload` performs no
sender-side size check.  On an eight-byte payload, which cannot fit into a
single classic CAN frame (seven payload bytes plus the tail byte), it
still pushes the whole transfer to the transmitter and returns the
transmitter's success, instead of rejecting the send. -/
theorem c3_no_size_check :
    payloadC3.length = 8 ∧
    (apC3.send_payload payloadC3 0 ⟨[]⟩).2.2 = .ok () ∧
    (apC3.send_payload payloadC3 0 ⟨[]⟩).2.1.pushed =
      [⟨0, ⟨45, 4, .message false 7509⟩, 0, payloadC3⟩] ∧
    (apC3.send_payload payloadC3 0 ⟨[]⟩).1.next_transfer_id = 1 := by
  decide

/-! ## Lemmas about the receiver pipeline -/

/-- Cleaning expired sessions does not change the receiver's node ID. -/
theorem clean_id (r : Receiver) (now : Nat) :
    (r.clean_expired_sessions now).id = r.id := rfl

/-- Cleaning expired sessions does not change the error counter. -/
theorem clean_error_count (r : Receiver) (now : Nat) :
    (r.clean_expired_sessions now).error_count = r.error_count := rfl

/-- Cleaning expired sessions does not change the transfer counter. -/
theorem clean_transfer_count (r : Receiver) (now : Nat) :
    (r.clean_expired_sessions now).transfer_count = r.transfer_count := rfl

/-- Reading back the subscription list written for a kind. -/
theorem set_subs_get (r : Receiver) (k : TransferKind) (subs : List Subscription) :
    (r.set_subs_for_kind k subs).subs_for_kind k = subs := by
  cases k <;> rfl

/-- Writing a subscription list does not change the error counter. -/
theorem set_subs_error_count (r : Receiver) (k : TransferKind)
    (subs : List Subscription) :
    (r.set_subs_for_kind k subs).error_count = r.error_count := by
  cases k <;> rfl

/-- Writing a subscription list does not change the transfer counter. -/
theorem set_subs_transfer_count (r : Receiver) (k : TransferKind)
    (subs : List Subscription) :
    (r.set_subs_for_kind k subs).transfer_count = r.transfer_count := by
  cases k <;> rfl

/-- Incrementing the error counter does not change the subscription lists. -/
theorem inc_error_subs (r : Receiver) (k : TransferKind) :
    r.increment_error_count.subs_for_kind k = r.subs_for_kind k := by
  cases k <;> rfl

/-- Incrementing the transfer counter does not change the subscription
lists. -/
theorem inc_transfer_subs (r : Receiver) (k : TransferKind) :
    r.increment_transfer_count.subs_for_kind k = r.subs_for_kind k := by
  cases k <;> rfl

/-- Destroying a session empties the slot of the node. -/
theorem destroy_session_get (sub : Subscription) (node : Nat) :
    (sub.destroy_session node).session_get node = none := by
  unfold Subscription.destroy_session Subscription.session_get
  simp only [Option.map_eq_none]
  induction sub.sessions with
  | nil => simp
  | cons e rest ih =>
    by_cases h : e.1 = node
    · simpa [List.filter, h] using ih
    · simp only [List.filter]
      rw [show (e.1 != node) = true from by simpa using h]
      simpa [List.find?, show (e.1 == node) = false from by simpa using h]
        using ih

/-- The reassembly step changes sessions and counters only, never the
port ID of the subscription. -/
theorem accept_session_port (sub : Subscription) (session : Session)
    (allocOk : Bool) (frame : Frame) (header : TransferHeader) :
    (accept_session sub session allocOk frame header).sub.port_id =
      sub.port_id := by
  unfold accept_session
  dsimp only
  repeat' split
  all_goals rfl

/-- Neither destroying nor creating a session changes the port ID of a
subscription. -/
theorem accept_in_sub_port (sub : Subscription) (allocOk : Bool) (frame : Frame)
    (header : TransferHeader) (tail : TailByte) :
    (accept_in_sub sub allocOk frame header tail).sub.port_id = sub.port_id := by
  unfold accept_in_sub
  repeat' split
  all_goals first
    | rfl
    | exact accept_session_port _ _ _ _ _

/-- Processing a frame in a subscription list whose first port match is
`sub` yields the counters and result of processing it in `sub`, and the
updated list's first port match is the updated subscription. -/
theorem accept_in_list_spec (allocOk : Bool) (frame : Frame)
    (header : TransferHeader) (tail : TailByte) :
    ∀ (subs : List Subscription) (sub : Subscription),
      subs.find? (fun s => s.port_id == header.kind.port_id) = some sub →
      (accept_in_list subs allocOk frame header tail).2 =
        ((accept_in_sub sub allocOk frame header tail).errInc,
         (accept_in_sub sub allocOk frame header tail).transferInc,
         (accept_in_sub sub allocOk frame header tail).result) ∧
      (accept_in_list subs allocOk frame header tail).1.find?
          (fun s => s.port_id == header.kind.port_id) =
        some (accept_in_sub sub allocOk frame header tail).sub := by
  intro subs
  induction subs with
  | nil => intro sub h; simp [List.find?] at h
  | cons head rest ih =>
    intro sub h
    rw [List.find?] at h
    by_cases hp : (head.port_id == header.kind.port_id) = true
    · rw [hp] at h
      simp only [Option.some.injEq] at h
      subst h
      unfold accept_in_list
      rw [if_pos hp]
      refine ⟨rfl, ?_⟩
      rw [List.find?]
      rw [show ((accept_in_sub head allocOk frame header tail).sub.port_id ==
          header.kind.port_id) = true from by
        rw [accept_in_sub_port]; exact hp]
    · rw [show (head.port_id == header.kind.port_id) = false from by
        simpa using hp] at h
      obtain ⟨h1, h2⟩ := ih sub h
      unfold accept_in_list
      rw [if_neg hp]
      refine ⟨h1, ?_⟩
      rw [List.find?]
      rw [show (head.port_id == header.kind.port_id) = false from by
        simpa using hp]
      exact h2

/-- Unfolding `Receiver::accept` once the sanity check has succeeded. -/
theorem accept_unfold (r : Receiver) (allocOk : Bool) (frame : Frame)
    (header : TransferHeader) (tail : TailByte)
    (hsan : frame_sanity_check r.id frame = some (header, tail)) :
    r.accept allocOk frame =
      (let rc := r.clean_expired_sessions frame.timestamp
       let acc := accept_in_list (rc.subs_for_kind header.kind.kind) allocOk
         frame header tail
       let r1 := rc.set_subs_for_kind header.kind.kind acc.1
       let r2 := if acc.2.1 then r1.increment_error_count else r1
       let r3 := if acc.2.2.1 then r2.increment_transfer_count else r2
       (r3, acc.2.2.2)) := by
  unfold Receiver.accept
  dsimp only
  rw [show frame_sanity_check (r.clean_expired_sessions frame.timestamp).id frame =
    some (header, tail) from hsan]

/-- Rebuilding a receiver with the same subscription lists and different
counters leaves every subscription list unchanged. -/
theorem subs_for_kind_mk (x : Receiver) (idv tc ec : Nat) (k : TransferKind) :
    (Receiver.mk x.subscriptions_message x.subscriptions_response
      x.subscriptions_request idv tc ec).subs_for_kind k = x.subs_for_kind k := by
  cases k <;> rfl

/-- Behavior of `Receiver::accept` in terms of the result of the
subscription-list traversal: the returned value, the counter updates, and
the updated subscription list. -/
theorem accept_spec (r : Receiver) (allocOk : Bool) (frame : Frame)
    (header : TransferHeader) (tail : TailByte) (subs' : List Subscription)
    (e t : Bool) (res : Except Unit (Option RxTransfer))
    (hsan : frame_sanity_check r.id frame = some (header, tail))
    (hlist : accept_in_list ((r.clean_expired_sessions frame.timestamp).subs_for_kind
        header.kind.kind) allocOk frame header tail = (subs', e, t, res)) :
    (r.accept allocOk frame).2 = res ∧
    (r.accept allocOk frame).1.error_count =
      (if e then inc_u64 r.error_count else r.error_count) ∧
    (r.accept allocOk frame).1.transfer_count =
      (if t then inc_u64 r.transfer_count else r.transfer_count) ∧
    (r.accept allocOk frame).1.subs_for_kind header.kind.kind = subs' := by
  rw [accept_unfold r allocOk frame header tail hsan]
  dsimp only
  rw [hlist]
  dsimp only
  cases e <;> cases t <;>
    refine ⟨rfl, ?_, ?_, ?_⟩ <;>
    simp [Receiver.increment_error_count, Receiver.increment_transfer_count,
      set_subs_error_count, set_subs_transfer_count, clean_error_count,
      clean_transfer_count, set_subs_get, inc_error_subs, inc_transfer_subs,
      subs_for_kind_mk]

/-- C6: when `Receiver::accept` completes a transfer reassembled from more
than one frame, the CRC-16/CCITT-FALSE over the whole reassembled buffer
must be zero; the two trailing CRC bytes are then stripped from the
returned payload.  If the CRC is nonzero, the session is destroyed, the
error counter is incremented, and no transfer is returned.  A transfer
completed in a single frame undergoes no CRC check and no truncation. -/
theorem c6_multiframe_crc (r : Receiver) (allocOk : Bool) (frame : Frame)
    (header : TransferHeader) (tail : TailByte) (sub : Subscription)
    (session : Session) (b' : Buildup) (data : List Nat)
    (hsan : frame_sanity_check r.id frame = some (header, tail))
    (hfind : ((r.clean_expired_sessions frame.timestamp).subs_for_kind
        header.kind.kind).find? (fun s => s.port_id == header.kind.port_id) =
      some sub)
    (hsess : sub.session_get header.source = some session)
    (htid : session.buildup.transfer_id = tail.transfer_id)
    (hbudget : session.buildup.payload_length + (frame.data.length - 1) ≤
      sub.payload_size_max)
    (htime : frame.timestamp - session.transfer_timestamp ≤ sub.timeout)
    (hadd : session.buildup.add allocOk frame.data = .ok (b', some data)) :
    (1 < b'.frames → transfer_crc data ≠ 0 →
      (r.accept allocOk frame).2 = .ok none ∧
      (r.accept allocOk frame).1.error_count = inc_u64 r.error_count ∧
      ((r.accept allocOk frame).1.subs_for_kind header.kind.kind).find?
          (fun s => s.port_id == header.kind.port_id) =
        some (sub.destroy_session header.source)) ∧
    (1 < b'.frames → transfer_crc data = 0 →
      (r.accept allocOk frame).2 = .ok (some ⟨session.transfer_timestamp, header,
        b'.transfer_id, data.take (data.length - 2)⟩) ∧
      (r.accept allocOk frame).1.transfer_count = inc_u64 r.transfer_count ∧
      (r.accept allocOk frame).1.error_count = r.error_count) ∧
    (b'.frames ≤ 1 →
      (r.accept allocOk frame).2 = .ok (some ⟨session.transfer_timestamp, header,
        b'.transfer_id, data⟩)) := by
  obtain ⟨hproj, hfound⟩ := accept_in_list_spec allocOk frame header tail _ sub hfind
  have hsub_eval : accept_in_sub sub allocOk frame header tail =
      accept_session sub session allocOk frame header := by
    unfold accept_in_sub
    rw [hsess]
    dsimp only
    rw [show (session.buildup.transfer_id != tail.transfer_id) = false from by
      simp [htid]]
    simp
  rw [hsub_eval] at hproj hfound
  refine ⟨?_, ?_, ?_⟩
  · intro hf hcrc
    have heval : accept_session sub session allocOk frame header =
        ⟨sub.destroy_session header.source, true, false, .ok none⟩ := by
      unfold accept_session
      dsimp only
      rw [if_neg (by omega), if_neg (by omega), hadd]
      dsimp only
      rw [if_pos hf, if_pos (by simpa using hcrc)]
    rw [heval] at hproj hfound
    dsimp only at hproj hfound
    have hlist := (Prod.mk.eta (p := accept_in_list
      ((r.clean_expired_sessions frame.timestamp).subs_for_kind header.kind.kind)
      allocOk frame header tail)).symm
    rw [hproj] at hlist
    obtain ⟨h1, h2, h3, h4⟩ := accept_spec r allocOk frame header tail _ _ _ _
      hsan hlist
    refine ⟨h1, ?_, ?_⟩
    · rw [h2]; simp
    · rw [h4]; exact hfound
  · intro hf hcrc
    have heval : accept_session sub session allocOk frame header =
        ⟨sub.destroy_session header.source, false, true,
          .ok (some ⟨session.transfer_timestamp, header, b'.transfer_id,
            data.take (data.length - 2)⟩)⟩ := by
      unfold accept_session
      dsimp only
      rw [if_neg (by omega), if_neg (by omega), hadd]
      dsimp only
      rw [if_pos hf, if_neg (by simp [hcrc])]
    rw [heval] at hproj hfound
    dsimp only at hproj hfound
    have hlist := (Prod.mk.eta (p := accept_in_list
      ((r.clean_expired_sessions frame.timestamp).subs_for_kind header.kind.kind)
      allocOk frame header tail)).symm
    rw [hproj] at hlist
    obtain ⟨h1, h2, h3, h4⟩ := accept_spec r allocOk frame header tail _ _ _ _
      hsan hlist
    refine ⟨h1, ?_, ?_⟩
    · rw [h3]; simp
    · rw [h2]; simp
  · intro hf
    have heval : accept_session sub session allocOk frame header =
        ⟨sub.destroy_session header.source, false, true,
          .ok (some ⟨session.transfer_timestamp, header, b'.transfer_id, data⟩)⟩ := by
      unfold accept_session
      dsimp only
      rw [if_neg (by omega), if_neg (by omega), hadd]
      dsimp only
      rw [if_neg (by omega)]
    rw [heval] at hproj hfound
    dsimp only at hproj hfound
    have hlist := (Prod.mk.eta (p := accept_in_list
      ((r.clean_expired_sessions frame.timestamp).subs_for_kind header.kind.kind)
      allocOk frame header tail)).symm
    rw [hproj] at hlist
    obtain ⟨h1, h2, h3, h4⟩ := accept_spec r allocOk frame header tail _ _ _ _
      hsan hlist
    exact h1

set_option maxRecDepth 8192 in
/-- Witness for C6: feeding the final frame of a two-frame transfer with a
valid transfer CRC into a subscribed receiver yields the nine-byte payload
with the two CRC bytes stripped, and counts the transfer. -/
theorem c6_witness :
    (recC6.accept true frameC6).2 =
      .ok (some ⟨0, ⟨42, 4, .message false 7509⟩, 3,
        [1, 2, 3, 4, 5, 6, 7, 8, 9]⟩) ∧
    (recC6.accept true frameC6).1.transfer_count = 1 := by
  have h := c6_multiframe_crc recC6 true frameC6 ⟨42, 4, .message false 7509⟩
    ⟨false, true, false, 3⟩ subC6 sessC6 buildupC6
    [1, 2, 3, 4, 5, 6, 7, 8, 9, 59, 10]
    (by decide) (by decide) (by decide) (by decide) (by decide) (by decide)
    (by decide)
  obtain ⟨h1, h2, h3⟩ := h.2.1 (by decide) (by decide)
  exact ⟨h1.trans (by decide), h2.trans (by decide)⟩

/-- C1 (failing input): when `Buildup::add` fails with `OutOfMemory` inside
`Receiver::accept`, the session is destroyed and the error counter is
incremented, but `accept` returns `Ok(None)` instead of propagating the
failure as an `Err(OutOfMemory)` (rx.rs lines 293-298), contradicting the
function's own documentation that it returns an error when memory
allocation has failed. -/
theorem c1_buildup_oom_returns_ok_none :
    Buildup.add ⟨0, false, 1, [1, 2, 3, 4, 5, 6, 7]⟩ false frameC1.data =
      .error .OutOfMemory ∧
    (recC1.accept false frameC1).2 = .ok none ∧
    (recC1.accept false frameC1).1.error_count = 1 ∧
    (recC1.accept false frameC1).1.subscriptions_message.map
      Subscription.sessions = [[]] := by
  decide

/-- C2 (counterexample): a service request frame addressed to node 42
arriving at a receiver whose node ID is 100 is dropped with `Ok(None)`,
but the error counter changes from 0 to 1 rather than staying unchanged. -/
theorem c2_counterexample :
    parse_can_id frameC2.id = .ok ⟨123, 4, .request 430 42⟩ ∧
    recC2.id = 100 ∧
    recC2.error_count = 0 ∧
    (recC2.accept true frameC2).2 = .ok none ∧
    (recC2.accept true frameC2).1.error_count = 1 := by
  decide

/-- C2 (amended): for every incoming frame carrying a service request or
response whose destination differs from the receiver's node ID,
`Receiver::accept` returns `Ok(None)` and increments the error counter by
one (the sanity-check failure is counted, not silent). -/
theorem c2_amended_service_drop_counted (r : Receiver) (allocOk : Bool)
    (frame : Frame) (header : TransferHeader) (d : Nat)
    (hne : frame.data ≠ [])
    (hparse : parse_can_id frame.id = .ok header)
    (hdest : header.service_destination = some d)
    (hd : d ≠ r.id) :
    (r.accept allocOk frame).2 = .ok none ∧
    (r.accept allocOk frame).1.error_count = inc_u64 r.error_count := by
  have hsan : frame_sanity_check r.id frame = none := by
    unfold frame_sanity_check
    obtain ⟨l, hl⟩ := Option.isSome_iff_exists.mp
      (List.getLast?_isSome.mpr hne)
    rw [hl]
    dsimp only
    rw [hparse]
    dsimp only
    rw [hdest]
    simp [hd]
  unfold Receiver.accept
  dsimp only
  rw [show frame_sanity_check (r.clean_expired_sessions frame.timestamp).id frame =
    none from hsan]
  exact ⟨rfl, rfl⟩

/-- Witness for the amended C2 at the concrete node-info request frame. -/
theorem c2_amended_witness :
    (recC2.accept true frameC2).2 = .ok none ∧
    (recC2.accept true frameC2).1.error_count = inc_u64 recC2.error_count :=
  c2_amended_service_drop_counted recC2 true frameC2 ⟨123, 4, .request 430 42⟩
    42 (by decide) (by decide) (by decide) (by decide)

/-- A successful bounded-map insertion never grows the map past its
capacity. -/
theorem insert_size (cap : Nat) (m : PublisherMap) (k : Nat) (v : Publisher)
    (m' : PublisherMap) (hsize : m.size ≤ cap)
    (h : PublisherMap.insert cap m k v = .ok m') : m'.size ≤ cap := by
  unfold PublisherMap.insert at h
  by_cases hc : m.contains_key k = true
  · rw [if_pos hc] at h
    exact absurd h (by simp)
  · rw [if_neg hc] at h
    by_cases hlt : m.size < cap
    · rw [if_pos hlt] at h
      simp only [Except.ok.injEq] at h
      subst h
      simpa [PublisherMap.size] using hlt
    · rw [if_neg hlt] at h
      exact absurd h (by simp)

/-- C4: re-inserting a subject that is already present in the node's
publisher map is rejected as a duplicate by both `Node::start_publishing_topic`
and `CoreNode::start_publishing`: the call fails and the map, including the
existing publisher's transfer-ID state, is returned unchanged; and neither
operation ever grows the map past its capacity `P`. -/
theorem c4_duplicate_publisher_refused (P node_id subject timeout priority : Nat)
    (m : PublisherMap) :
    (m.contains_key subject = true →
      start_publishing_topic P node_id m subject timeout priority =
        (m, .error ()) ∧
      core_start_publishing P node_id m subject timeout priority =
        (m, .error .Duplicate)) ∧
    (m.size ≤ P →
      (start_publishing_topic P node_id m subject timeout priority).1.size ≤ P ∧
      (core_start_publishing P node_id m subject timeout priority).1.size ≤ P) := by
  constructor
  · intro hdup
    constructor
    · unfold start_publishing_topic
      rw [show PublisherMap.insert P m subject
          (Publisher.new node_id timeout priority) = .error () from by
        unfold PublisherMap.insert; rw [if_pos hdup]]
    · unfold core_start_publishing
      rw [if_pos hdup]
  · intro hsize
    constructor
    · unfold start_publishing_topic
      cases hins : PublisherMap.insert P m subject
          (Publisher.new node_id timeout priority) with
      | ok m' =>
        exact insert_size P m subject _ m' hsize hins
      | error e =>
        exact hsize
    · unfold core_start_publishing
      by_cases hdup : m.contains_key subject = true
      · rw [if_pos hdup]
        exact hsize
      · rw [if_neg hdup]
        cases hins : PublisherMap.insert P m subject
            (Publisher.new node_id timeout priority) with
        | ok m' =>
          exact insert_size P m subject _ m' hsize hins
        | error e =>
          exact hsize

/-- Witness for C4 at a concrete one-entry map with capacity eight. -/
theorem c4_witness :
    start_publishing_topic 8 100 pmC4 7509 60 3 = (pmC4, .error ()) ∧
    core_start_publishing 8 100 pmC4 7509 60 3 = (pmC4, .error .Duplicate) ∧
    (start_publishing_topic 8 100 pmC4 7509 60 3).1.size ≤ 8 := by
  have h := c4_duplicate_publisher_refused 8 100 7509 60 3 pmC4
  exact ⟨(h.1 (by decide)).1, (h.1 (by decide)).2, (h.2 (by decide)).1⟩
